import Mathlib

/-!
Verification of the emission-estimation core of the Footprint Emission
Calculator (src/src/App.tsx).

Numbers held in JavaScript variables are modelled as real numbers; the
integer emission factors of the transport profiles are modelled as
rationals.  String-rendering of numbers (JavaScript template interpolation
and `toFixed`) is kept abstract: functions that embed a number into a
string take the rendering function as a parameter.  Results of the
external network calls (directions lookup, text generation) are passed in
as parameters: `none` models a failed call.
-/

namespace Footprint

/-- JavaScript `Math.atan2 y x` over the reals. -/
noncomputable def atan2 (y x : ℝ) : ℝ :=
  if 0 < x then Real.arctan (y / x)
  else if x < 0 then
    (if 0 ≤ y then Real.arctan (y / x) + Real.pi else Real.arctan (y / x) - Real.pi)
  else
    (if 0 < y then Real.pi / 2 else if y < 0 then -(Real.pi / 2) else 0)

/-- A latitude/longitude pair (the `lat`/`lng` fields used by `App.tsx`). -/
structure Coordinate where
  lat : ℝ
  lng : ℝ

/-- The intermediate value `a` of the Haversine computation in
`calculateEmissions` (App.tsx lines 228-234). -/
noncomputable def hav_a (p q : Coordinate) : ℝ :=
  Real.sin ((q.lat - p.lat) * Real.pi / 180 / 2) *
      Real.sin ((q.lat - p.lat) * Real.pi / 180 / 2) +
    Real.cos (p.lat * Real.pi / 180) * Real.cos (q.lat * Real.pi / 180) *
      Real.sin ((q.lng - p.lng) * Real.pi / 180 / 2) *
      Real.sin ((q.lng - p.lng) * Real.pi / 180 / 2)

/-- The Haversine great-circle distance computed inline by
`calculateEmissions` (App.tsx lines 228-236): `R * c` with `R = 6371` and
`c = 2 * atan2 (sqrt a) (sqrt (1 - a))`. -/
noncomputable def haversineDistance (p q : Coordinate) : ℝ :=
  6371 * (2 * atan2 (Real.sqrt (hav_a p q)) (Real.sqrt (1 - hav_a p q)))

/-- `parseFloat(x.toFixed(2))`: round to two decimal places.  ECMAScript
`toFixed` picks the integer n with n/100 closest to x, the larger n on a
tie, which is exactly `⌊x * 100 + 1/2⌋`. -/
noncomputable def round2 (x : ℝ) : ℝ :=
  (round (x * 100) : ℤ) / 100

/-- A transport profile (interface `TransportType`, the `icon` field is
presentation-only and omitted). -/
structure TransportType where
  id : String
  name : String
  emissionFactor : ℚ
  deriving DecidableEq, Repr

/-- The fixed profile enumeration (App.tsx lines 68-72). -/
def transportTypes : List TransportType :=
  [ { id := "gas-car", name := "Gas Car", emissionFactor := 170 },
    { id := "electric-car", name := "Electric Car", emissionFactor := 128 },
    { id := "bus", name := "Bus", emissionFactor := 31 } ]

/-- `getSelectedTransportType` (App.tsx lines 75-77):
`transportTypes.find(type => type.id === selectedTransportType) || transportTypes[0]`. -/
def getSelectedTransportType (selectedTransportType : String) : TransportType :=
  (transportTypes.find? (fun type_ => type_.id == selectedTransportType)).getD
    (transportTypes.get ⟨0, by decide⟩)

/-- A normalized transit segment (interface `TransitInfo`). -/
structure TransitInfo where
  mode : String
  departure_stop : String
  arrival_stop : String
  transit_distance : String
  walking_before : Option String
  walking_after : Option String
  deriving DecidableEq, Repr

/-! ### A well-formed directions response

These structures model the shape of a Google directions response that
`getRouteData` (App.tsx lines 121-173) consumes on its non-throwing path:
every field the code dereferences is present. -/

structure Vehicle where
  name : String
  deriving DecidableEq, Repr

structure Line where
  vehicle : Vehicle
  deriving DecidableEq, Repr

structure Stop where
  name : String
  deriving DecidableEq, Repr

structure TransitDetails where
  line : Line
  departure_stop : Stop
  arrival_stop : Stop
  deriving DecidableEq, Repr

/-- A `{ text: ... }` object (the `distance` and `duration` step fields). -/
structure TextVal where
  text : String
  deriving DecidableEq, Repr

structure Step where
  travel_mode : String
  distance : TextVal
  duration : TextVal
  transit_details : Option TransitDetails
  deriving DecidableEq, Repr

structure Leg where
  steps : List Step
  deriving DecidableEq, Repr

structure Route where
  legs : List Leg
  deriving DecidableEq, Repr

structure DirectionsResponse where
  status : String
  routes : List Route
  deriving DecidableEq, Repr

/-- JavaScript `toLowerCase`: lower-case the string character by
character. -/
def jsToLower (s : String) : String :=
  String.mk (s.data.map Char.toLower)

/-- `step.travel_mode.toLowerCase() === 'walking'`. -/
def isWalking (s : Step) : Bool :=
  jsToLower s.travel_mode == "walking"

/-- The walking annotation string
`` `${s.distance.text} (Duration: ${s.duration.text})` ``. -/
def walkNote (s : Step) : String :=
  s.distance.text ++ " (Duration: " ++ s.duration.text ++ ")"

/-- The `TransitInfo` record built by the loop body of `getRouteData`
(App.tsx lines 141-162) for the step at index `i` of a leg. -/
def mkSegment (steps : List Step) (i : Nat) (step : Step)
    (transit : TransitDetails) : TransitInfo :=
  { mode := transit.line.vehicle.name
    departure_stop := transit.departure_stop.name
    arrival_stop := transit.arrival_stop.name
    transit_distance := step.distance.text
    walking_before :=
      if 0 < i then
        match steps[i - 1]? with
        | some prev => if isWalking prev then some (walkNote prev) else none
        | none => none
      else none
    walking_after :=
      if i < steps.length - 1 then
        match steps[i + 1]? with
        | some next => if isWalking next then some (walkNote next) else none
        | none => none
      else none }

/-- The inner `for (let stepIndex = 0; ...)` loop of `getRouteData` over one
leg: one `TransitInfo` per step that carries `transit_details`. -/
def processLeg (steps : List Step) : List TransitInfo :=
  (List.range steps.length).filterMap fun i =>
    match steps[i]? with
    | some step =>
      match step.transit_details with
      | some transit => some (mkSegment steps i step transit)
      | none => none
    | none => none

/-- The outer `for (const leg of route.legs)` loop: the full `travelData`
accumulated by `getRouteData` for one route. -/
def normalizeLegs (legs : List Leg) : List TransitInfo :=
  legs.flatMap fun leg => processLeg leg.steps

/-- `getRouteData` (App.tsx lines 121-173) minus the network fetch: the
response is a parameter.  Returns `none` for a non-OK status, an empty
route list, or a normalization that produced no transit segments
(`travelData.length > 0 ? travelData : null`). -/
def getRouteData (directions : DirectionsResponse) : Option (List TransitInfo) :=
  if directions.status = "OK" then
    match directions.routes with
    | [] => none
    | route :: _ =>
      let travelData := normalizeLegs route.legs
      if 0 < travelData.length then some travelData else none
  else none

/-- Rendering of numbers into JavaScript strings, kept abstract: `interp`
is template interpolation of a number, `toFixed2` is `.toFixed(2)`, and
`factor` is interpolation of the (rational) emission factor. -/
structure NumberRendering where
  interp : ℝ → String
  toFixed2 : ℝ → String
  factor : ℚ → String

/-- The per-segment block appended to the prompt by the
`for (const step of travelData)` loop of `getAIFeedback`
(App.tsx lines 183-197). -/
def stepBlock (step : TransitInfo) : String :=
  "üöç Transit Mode: " ++ step.mode ++ "\n" ++
  "üìè Transit Distance: " ++ step.transit_distance ++ "\n" ++
  "üõë Departure: " ++ step.departure_stop ++
    " ‚û°Ô∏è Arrival: " ++ step.arrival_stop ++ "\n" ++
  (match step.walking_before with
   | some w => "üö∂ Walking Before Transit: " ++ w ++ "\n"
   | none => "") ++
  (match step.walking_after with
   | some w => "üö∂ Walking After Transit: " ++ w ++ "\n"
   | none => "") ++
  "\n"

/-- The profile-plus-distance block used when there is no transit data
(App.tsx lines 199-203). -/
def profileBlock (r : NumberRendering) (distance : ℝ) (transportType : TransportType) :
    String :=
  "üöó Transport Type: " ++ transportType.name ++ "\n" ++
  "üìè Travel Distance: " ++ r.interp distance ++ " km\n" ++
  "üí® Emission Factor: " ++ r.factor transportType.emissionFactor ++
    " grams CO2 per km\n\n"

/-- The prompt assembled by `getAIFeedback` (App.tsx lines 180-207). -/
noncomputable def buildPrompt (r : NumberRendering) (travelData : Option (List TransitInfo))
    (distance : ℝ) (transportType : TransportType) : String :=
  "Provide a detailed and insightful travel analysis based on the following information:\n\n" ++
  (match travelData with
   | some l => if 0 < l.length then String.join (l.map stepBlock)
               else profileBlock r distance transportType
   | none => profileBlock r distance transportType) ++
  "Total Distance: " ++ r.interp distance ++ " km\n" ++
  "Total Emissions: " ++
    r.toFixed2 (distance * (transportType.emissionFactor : ℝ) / 1000) ++ " kg CO2\n\n" ++
  "Provide an overall assessment of user\x27s journey, considering efficiency and environmental impact based on the kilogram of CO2 emitted from using the transportation modes. Do not include infrastructure recommendations for improvement but include how can the user emit less emission by providing alternative routes or modes of transportation. Also present the kg of co2 emitted using the modes of transportation in a clean format followed by the feedback. Keep your response concise and under 200 words."

/-- The fixed fallback returned by `getAIFeedback` when the generation call
throws (App.tsx line 216). -/
def aiFallback : String :=
  "Unable to generate AI feedback at this time. Please try again later."

/-- `getAIFeedback` (App.tsx lines 176-218): `callModel` stands for the
external text-generation round trip on the assembled prompt, `none`
modelling a thrown error. -/
noncomputable def getAIFeedback (callModel : String → Option String) (r : NumberRendering)
    (travelData : Option (List TransitInfo)) (distance : ℝ)
    (transportType : TransportType) : String :=
  match callModel (buildPrompt r travelData distance transportType) with
  | some text => text
  | none => aiFallback

/-- The result record (interface `EmissionResult`). -/
structure EmissionResult where
  distance : ℝ
  emissions : ℝ
  transportType : String
  aiFeedback : String

/-- `calculateEmissions` (App.tsx lines 221-257).  The directions lookup
result (`transitData`) and the text-generation round trip (`callModel`)
are parameters; `round2` models `parseFloat(x.toFixed(2))`. -/
noncomputable def calculateEmissions (r : NumberRendering)
    (callModel : String → Option String) (selectedTransportType : String)
    (transitData : Option (List TransitInfo)) (start end_ : Coordinate) :
    EmissionResult :=
  let distance := haversineDistance start end_
  let transportType := getSelectedTransportType selectedTransportType
  let emissions := distance * (transportType.emissionFactor : ℝ) / 1000
  let aiFeedback := getAIFeedback callModel r transitData (round2 distance) transportType
  { distance := round2 distance
    emissions := round2 emissions
    transportType := transportType.name
    aiFeedback := aiFeedback }

/-- One entry of a geocoding response. -/
structure GeocodeResult where
  formatted_address : String
  deriving DecidableEq, Repr

/-- A geocoding response: status plus result list. -/
structure GeocodeResponse where
  status : String
  results : List GeocodeResult
  deriving DecidableEq, Repr

/-- `getAddressFromCoordinates` (App.tsx lines 102-118): `toFixed4` models
`.toFixed(4)`, `response` is the network round trip (`none` = thrown). -/
def getAddressFromCoordinates (toFixed4 : ℝ → String) (lat lng : ℝ)
    (response : Option GeocodeResponse) : String :=
  match response with
  | some data =>
    if data.status = "OK" then
      match data.results with
      | r :: _ => r.formatted_address
      | [] => "Location at " ++ toFixed4 lat ++ ", " ++ toFixed4 lng
    else "Location at " ++ toFixed4 lat ++ ", " ++ toFixed4 lng
  | none => "Location at " ++ toFixed4 lat ++ ", " ++ toFixed4 lng

/-- A selected location (interface `Location`). -/
structure Location where
  lat : ℝ
  lng : ℝ
  address : String

/-- The component state touched by `handleCalculate`. -/
structure AppState where
  startLocation : Option Location
  endLocation : Option Location
  isCalculating : Bool
  result : Option EmissionResult
  error : Option String
  selectedTransportType : String

/-- `handleCalculate` (App.tsx lines 259-273) as a state transition: the
awaited `calculateEmissions` outcome is a parameter; `Except.error`
models a thrown error.  On a throw the catch block sets the error message
and the finally block clears `isCalculating`; nothing else is written. -/
def handleCalculate (outcome : Except Unit EmissionResult) (s : AppState) : AppState :=
  if s.startLocation.isSome ∧ s.endLocation.isSome then
    match outcome with
    | .ok res =>
      { s with isCalculating := false, error := none, result := some res }
    | .error _ =>
      { s with isCalculating := false,
               error := some "Error calculating emissions. Please try again." }
  else s

/-! ### A dynamic (possibly malformed) directions response

JavaScript objects may lack any of the fields `getRouteData` dereferences;
dereferencing a missing (`undefined`) field throws a `TypeError`, which the
`try`/`catch` wrapping the whole of `getRouteData` turns into `null`.
Optional fields model possibly-missing properties and `Except Unit` models
a throwing computation. -/

structure JsVehicle where
  name : String
  deriving DecidableEq, Repr

structure JsLine where
  vehicle : Option JsVehicle
  deriving DecidableEq, Repr

structure JsStop where
  name : String
  deriving DecidableEq, Repr

structure JsTransit where
  line : Option JsLine
  departure_stop : Option JsStop
  arrival_stop : Option JsStop
  deriving DecidableEq, Repr

structure JsText where
  text : String
  deriving DecidableEq, Repr

structure JsStep where
  travel_mode : Option String
  distance : Option JsText
  duration : Option JsText
  transit_details : Option JsTransit
  deriving DecidableEq, Repr

structure JsLeg where
  steps : Option (List JsStep)
  deriving DecidableEq, Repr

structure JsRoute where
  legs : Option (List JsLeg)
  deriving DecidableEq, Repr

structure JsDirections where
  status : String
  routes : Option (List JsRoute)
  deriving DecidableEq, Repr

/-- Dereference a property of a possibly-`undefined` value: throws
(`TypeError`) when the value is missing. -/
def jsGet : Option α → Except Unit α
  | some a => .ok a
  | none => .error ()

/-- The loop body of `getRouteData` over the dynamic model: building the
`TransitInfo` for step `i` dereferences `transit.line.vehicle.name`, the
stop names, `step.distance.text`, and — when a neighbouring step is
consulted — its `travel_mode`, `distance` and `duration`; any missing one
throws. -/
def buildSegE (steps : List JsStep) (i : Nat) (step : JsStep)
    (transit : JsTransit) : Except Unit TransitInfo := do
  let line ← jsGet transit.line
  let vehicle ← jsGet line.vehicle
  let departure ← jsGet transit.departure_stop
  let arrival ← jsGet transit.arrival_stop
  let dist ← jsGet step.distance
  let walking_before ←
    if 0 < i then
      match steps[i - 1]? with
      | some prev => do
        let mode ← jsGet prev.travel_mode
        if jsToLower mode == "walking" then do
          let d ← jsGet prev.distance
          let du ← jsGet prev.duration
          pure (some (d.text ++ " (Duration: " ++ du.text ++ ")"))
        else pure (none : Option String)
      | none => pure none
    else pure none
  let walking_after ←
    if i < steps.length - 1 then
      match steps[i + 1]? with
      | some next => do
        let mode ← jsGet next.travel_mode
        if jsToLower mode == "walking" then do
          let d ← jsGet next.distance
          let du ← jsGet next.duration
          pure (some (d.text ++ " (Duration: " ++ du.text ++ ")"))
        else pure (none : Option String)
      | none => pure none
    else pure none
  pure { mode := vehicle.name
         departure_stop := departure.name
         arrival_stop := arrival.name
         transit_distance := dist.text
         walking_before := walking_before
         walking_after := walking_after }

/-- The inner step loop over one leg in the dynamic model. -/
def processLegE (steps : List JsStep) : Except Unit (List TransitInfo) :=
  (List.range steps.length).foldlM
    (fun acc i =>
      match steps[i]? with
      | some step =>
        match step.transit_details with
        | some transit => do
          let seg ← buildSegE steps i step transit
          pure (acc ++ [seg])
        | none => pure acc
      | none => pure acc)
    []

/-- The outer `for (const leg of route.legs)` loop in the dynamic model:
dereferencing a missing `steps` property throws. -/
def legsFoldE (legs : List JsLeg) : Except Unit (List TransitInfo) :=
  legs.foldlM
    (fun acc leg => do
      let steps ← jsGet leg.steps
      let segs ← processLegE steps
      pure (acc ++ segs))
    []

/-- `getRouteData` over the dynamic model, `try`/`catch` included: a
thrown `TypeError` anywhere inside the loops is caught and turned into
`null` (`none`). -/
def getRouteDataE (directions : JsDirections) : Option (List TransitInfo) :=
  let run : Except Unit (Option (List TransitInfo)) := do
    if directions.status = "OK" then
      match directions.routes with
      | none => pure none
      | some [] => pure none
      | some (route :: _) => do
        let legs ← jsGet route.legs
        let travelData ← legsFoldE legs
        pure (if 0 < travelData.length then some travelData else none)
    else pure none
  match run with
  | .ok v => v
  | .error _ => none

/-- The four fields of a `TransitInfo` copied verbatim from a step's
transit details. -/
def segCore (seg : TransitInfo) : String × String × String × String :=
  (seg.mode, seg.departure_stop, seg.arrival_stop, seg.transit_distance)

/-- The verbatim core a step with transit details contributes. -/
def coreOf (step : Step) (transit : TransitDetails) : String × String × String × String :=
  (transit.line.vehicle.name, transit.departure_stop.name,
   transit.arrival_stop.name, step.distance.text)

/-- A sample walking step, used in concrete instantiations. -/
def demoWalkStep : Step :=
  { travel_mode := "WALKING", distance := { text := "500 m" },
    duration := { text := "6 mins" }, transit_details := none }

/-- Sample transit details, used in concrete instantiations. -/
def demoTransit : TransitDetails :=
  { line := { vehicle := { name := "Bus" } },
    departure_stop := { name := "Granville Station" },
    arrival_stop := { name := "Waterfront Station" } }

/-- A sample transit step, used in concrete instantiations. -/
def demoTransitStep : Step :=
  { travel_mode := "TRANSIT", distance := { text := "2.0 km" },
    duration := { text := "10 mins" }, transit_details := some demoTransit }

/-- A well-formed transit step of the dynamic model. -/
def demoJsGoodStep : JsStep :=
  { travel_mode := some "TRANSIT", distance := some { text := "2.0 km" },
    duration := some { text := "10 mins" },
    transit_details := some
      { line := some { vehicle := some { name := "Bus" } },
        departure_stop := some { name := "Granville Station" },
        arrival_stop := some { name := "Waterfront Station" } } }

/-- A malformed transit step: transit details are present but the `line`
property is missing, so `transit.line.vehicle` throws. -/
def demoJsBadStep : JsStep :=
  { travel_mode := some "TRANSIT", distance := some { text := "1.0 km" },
    duration := some { text := "5 mins" },
    transit_details := some
      { line := none,
        departure_stop := some { name := "C" },
        arrival_stop := some { name := "D" } } }

/-- A response whose single leg holds a well-formed transit step followed
by the malformed one. -/
def demoBadDirections : JsDirections :=
  { status := "OK",
    routes := some [{ legs := some [{ steps := some [demoJsGoodStep, demoJsBadStep] }] }] }

/-- The same response with the malformed step removed. -/
def demoGoodDirections : JsDirections :=
  { status := "OK",
    routes := some [{ legs := some [{ steps := some [demoJsGoodStep] }] }] }

end Footprint

namespace Footprint

/-! ### Supporting lemmas -/

lemma atan2_nonneg {y x : ℝ} (hy : 0 ≤ y) (hx : 0 ≤ x) : 0 ≤ atan2 y x := by
  unfold atan2
  rcases lt_or_eq_of_le hx with h | h
  · rw [if_pos h]
    have h0 : Real.arctan 0 ≤ Real.arctan (y / x) :=
      Real.arctan_strictMono.monotone (div_nonneg hy hx)
    simpa [Real.arctan_zero] using h0
  · rw [if_neg (by rw [← h]; exact lt_irrefl 0), if_neg (by rw [← h]; exact lt_irrefl 0)]
    rcases lt_or_eq_of_le hy with hy' | hy'
    · rw [if_pos hy']
      positivity
    · rw [if_neg (by rw [← hy']; exact lt_irrefl 0), if_neg (by rw [← hy']; exact lt_irrefl 0)]

lemma haversineDistance_nonneg (p q : Coordinate) : 0 ≤ haversineDistance p q := by
  unfold haversineDistance
  have h := atan2_nonneg (Real.sqrt_nonneg (hav_a p q)) (Real.sqrt_nonneg (1 - hav_a p q))
  nlinarith

lemma hav_a_symm (p q : Coordinate) : hav_a p q = hav_a q p := by
  unfold hav_a
  have key : ∀ a b : ℝ, Real.sin ((a - b) * Real.pi / 180 / 2) =
      -Real.sin ((b - a) * Real.pi / 180 / 2) := by
    intro a b
    rw [show (a - b) * Real.pi / 180 / 2 = -((b - a) * Real.pi / 180 / 2) by ring,
      Real.sin_neg]
  rw [key q.lat p.lat, key q.lng p.lng]
  ring

lemma haversineDistance_self (p : Coordinate) : haversineDistance p p = 0 := by
  have ha : hav_a p p = 0 := by
    unfold hav_a
    simp [sub_self]
  rw [haversineDistance, ha]
  simp [atan2, Real.arctan_zero]

lemma getSelectedTransportType_mem (s : String) :
    getSelectedTransportType s ∈ transportTypes := by
  unfold getSelectedTransportType
  cases h : transportTypes.find? (fun type_ => type_.id == s) with
  | none =>
    simp only [h, Option.getD_none]
    exact List.get_mem transportTypes 0 (by decide)
  | some t =>
    simpa [h] using List.mem_of_find?_eq_some h

lemma factor_nonneg (s : String) : 0 ≤ (getSelectedTransportType s).emissionFactor := by
  have h := getSelectedTransportType_mem s
  simp only [transportTypes, List.mem_cons, List.not_mem_nil, or_false] at h
  rcases h with h | h | h <;> rw [h] <;> norm_num

lemma round2_nonneg {x : ℝ} (hx : 0 ≤ x) : 0 ≤ round2 x := by
  unfold round2
  have h : (0 : ℤ) ≤ round (x * 100) := by
    rw [round_eq]
    exact Int.le_floor.mpr (by push_cast; linarith)
  have h' : (0 : ℝ) ≤ (round (x * 100) : ℤ) := by exact_mod_cast h
  linarith [div_nonneg h' (by norm_num : (0:ℝ) ≤ 100)]

lemma filterMap_range_getElem {α β : Type} (l : List α) (h : α → Option β) :
    (List.range l.length).filterMap (fun i => (l[i]?).bind h) = l.filterMap h := by
  induction l with
  | nil => simp
  | cons a t ih =>
    rw [List.length_cons, List.range_succ_eq_map, List.filterMap_cons, List.filterMap_map]
    have hcomp : ((fun i => ((a :: t)[i]?).bind h) ∘ Nat.succ) =
        fun i => (t[i]?).bind h := by
      funext i
      simp
    rw [hcomp, ih]
    simp [List.filterMap_cons]

lemma processLeg_map_core (steps : List Step) :
    (processLeg steps).map segCore =
      steps.filterMap fun s => s.transit_details.map (coreOf s) := by
  rw [processLeg, List.map_filterMap]
  have hfun : (fun (i : Nat) =>
      Option.map segCore
        (match steps[i]? with
          | some step =>
            match step.transit_details with
            | some transit => some (mkSegment steps i step transit)
            | none => none
          | none => none)) =
      fun i => (steps[i]?).bind fun s => s.transit_details.map (coreOf s) := by
    funext i
    cases hs : steps[i]? with
    | none => rfl
    | some step =>
      cases ht : step.transit_details with
      | none => simp [ht]
      | some transit => simp [ht, segCore, coreOf, mkSegment]
  rw [hfun]
  exact filterMap_range_getElem steps _

lemma length_filterMap_core (steps : List Step) :
    (steps.filterMap fun s => s.transit_details.map (coreOf s)).length =
      (steps.filter fun s => s.transit_details.isSome).length := by
  induction steps with
  | nil => rfl
  | cons a t ih =>
    cases h : a.transit_details <;>
      simp [List.filterMap_cons, List.filter_cons, h, ih]

lemma mkSegment_walking_before_iff (steps : List Step) (i : Nat) (step : Step)
    (transit : TransitDetails) (w : String) :
    (mkSegment steps i step transit).walking_before = some w ↔
      ∃ prev, 0 < i ∧ steps[i - 1]? = some prev ∧ isWalking prev ∧ w = walkNote prev := by
  by_cases hi : 0 < i
  · cases hp : steps[i - 1]? with
    | none => simp [mkSegment, hi, hp]
    | some prev =>
      by_cases hw : isWalking prev
      · simp only [mkSegment, hi, hp, hw]
        simp [hw]
        exact eq_comm
      · simp [mkSegment, hi, hp, hw]
  · simp [mkSegment, hi]

lemma mkSegment_walking_after_iff (steps : List Step) (i : Nat) (step : Step)
    (transit : TransitDetails) (w : String) :
    (mkSegment steps i step transit).walking_after = some w ↔
      ∃ next, steps[i + 1]? = some next ∧ isWalking next ∧ w = walkNote next := by
  by_cases hi : i < steps.length - 1
  · cases hn : steps[i + 1]? with
    | none => simp [mkSegment, hi, hn]
    | some next =>
      by_cases hw : isWalking next
      · simp only [mkSegment, hi, hn, hw]
        simp [hw]
        exact eq_comm
      · simp [mkSegment, hi, hn, hw]
  · have hn : steps[i + 1]? = none := by
      rw [List.getElem?_eq_none_iff]
      omega
    simp [mkSegment, hi, hn]

lemma processLeg_eq_nil {steps : List Step}
    (h : ∀ s ∈ steps, s.transit_details = none) : processLeg steps = [] := by
  rw [processLeg, List.filterMap_eq_nil_iff]
  intro i _
  cases hs : steps[i]? with
  | none => rfl
  | some s =>
    have hmem : s ∈ steps := List.getElem?_mem hs
    simp [hs, h s hmem]

lemma normalizeLegs_eq_nil {legs : List Leg}
    (h : ∀ leg ∈ legs, ∀ s ∈ leg.steps, s.transit_details = none) :
    normalizeLegs legs = [] := by
  rw [normalizeLegs, List.flatMap_eq_nil_iff]
  intro leg hleg
  exact processLeg_eq_nil (h leg hleg)

lemma buildSegE_line_none {steps : List JsStep} {i : Nat} {step : JsStep}
    {transit : JsTransit} (h : transit.line = none) :
    buildSegE steps i step transit = .error () := by
  rw [buildSegE, h]
  rfl

lemma foldlM_error_of_mem {α β : Type} (l : List α) (f : β → α → Except Unit β)
    (x : α) (hx : x ∈ l) (hf : ∀ acc, f acc x = .error ()) :
    ∀ init, l.foldlM f init = .error () := by
  induction l with
  | nil => cases hx
  | cons a t ih =>
    intro init
    rw [List.foldlM_cons]
    rcases List.mem_cons.mp hx with rfl | hmem
    · rw [hf init]
      rfl
    · cases hfa : f init a with
      | error e =>
        cases e
        rfl
      | ok b =>
        exact ih hmem b

lemma processLegE_error {steps : List JsStep} {step : JsStep}
    {transit : JsTransit} (hs : step ∈ steps)
    (ht : step.transit_details = some transit) (hl : transit.line = none) :
    processLegE steps = .error () := by
  obtain ⟨j, hj, hget⟩ := List.getElem_of_mem hs
  rcases step with ⟨tm, di, du, td⟩
  have ht' : td = some transit := ht
  subst ht'
  have hget? : steps[j]? = some ⟨tm, di, du, some transit⟩ := by
    rw [List.getElem?_eq_getElem hj, hget]
  rw [processLegE]
  refine foldlM_error_of_mem _ _ j (List.mem_range.mpr hj) ?_ []
  intro acc
  rw [hget?]
  show (buildSegE steps j ⟨tm, di, du, some transit⟩ transit >>= fun seg =>
    pure (acc ++ [seg]) : Except Unit (List TransitInfo)) = Except.error ()
  rw [buildSegE_line_none hl]
  rfl

lemma legsFoldE_error {legs : List JsLeg} {leg : JsLeg} {steps : List JsStep}
    {step : JsStep} {transit : JsTransit} (hleg : leg ∈ legs)
    (hsteps : leg.steps = some steps) (hstep : step ∈ steps)
    (ht : step.transit_details = some transit) (hline : transit.line = none) :
    legsFoldE legs = .error () := by
  rcases leg with ⟨ls⟩
  have h : ls = some steps := hsteps
  subst h
  rw [legsFoldE]
  refine foldlM_error_of_mem _ _ _ hleg ?_ []
  intro acc
  show (processLegE steps >>= fun segs =>
    pure (acc ++ segs) : Except Unit (List TransitInfo)) = Except.error ()
  rw [processLegE_error hstep ht hline]
  rfl

lemma mkSegment_mem_processLeg {steps : List Step} {i : Nat} {step : Step}
    {transit : TransitDetails} (hs : steps[i]? = some step)
    (ht : step.transit_details = some transit) :
    mkSegment steps i step transit ∈ processLeg steps := by
  rw [processLeg]
  refine List.mem_filterMap.mpr ⟨i, List.mem_range.mpr ?_, ?_⟩
  · have := List.getElem?_eq_some_iff.mp hs
    exact this.1
  · simp [hs, ht]

/-! ### Claim theorems -/

/-- C1: for every start/end coordinate pair and every transport profile,
the result's `emissions` equals the full-precision distance times the
profile's emission factor over 1000, rounded to two decimals only at the
result boundary (not computed from the pre-rounded distance), and both
`distance` and `emissions` are non-negative. -/
theorem emission_result_contract (r : NumberRendering)
    (callModel : String → Option String) (selected : String)
    (transitData : Option (List TransitInfo)) (start end_ : Coordinate) :
    (calculateEmissions r callModel selected transitData start end_).emissions =
      round2 (haversineDistance start end_ *
        ((getSelectedTransportType selected).emissionFactor : ℝ) / 1000) ∧
    (calculateEmissions r callModel selected transitData start end_).distance =
      round2 (haversineDistance start end_) ∧
    0 ≤ (calculateEmissions r callModel selected transitData start end_).distance ∧
    0 ≤ (calculateEmissions r callModel selected transitData start end_).emissions := by
  refine ⟨rfl, rfl, ?_, ?_⟩
  · exact round2_nonneg (haversineDistance_nonneg start end_)
  · refine round2_nonneg (div_nonneg (mul_nonneg (haversineDistance_nonneg start end_) ?_)
      (by norm_num))
    exact_mod_cast factor_nonneg selected

/-- C2: the distance computation is exactly the Haversine formula with
Earth radius 6371 km, `a = sin²(Δlat/2) + cos lat1 · cos lat2 · sin²(Δlon/2)`
and `distance = 2 · R · atan2 (√a) (√(1−a))`, with degree inputs scaled by
π/180; the result is never rounded internally, is always non-negative, and
is 0 on identical coordinates. -/
theorem distance_calculator_contract (p q : Coordinate) :
    haversineDistance p q =
      2 * 6371 * atan2
        (Real.sqrt (Real.sin ((q.lat - p.lat) * Real.pi / 180 / 2) ^ 2 +
          Real.cos (p.lat * Real.pi / 180) * Real.cos (q.lat * Real.pi / 180) *
            Real.sin ((q.lng - p.lng) * Real.pi / 180 / 2) ^ 2))
        (Real.sqrt (1 - (Real.sin ((q.lat - p.lat) * Real.pi / 180 / 2) ^ 2 +
          Real.cos (p.lat * Real.pi / 180) * Real.cos (q.lat * Real.pi / 180) *
            Real.sin ((q.lng - p.lng) * Real.pi / 180 / 2) ^ 2))) ∧
    0 ≤ haversineDistance p q ∧
    haversineDistance p p = 0 := by
  refine ⟨?_, haversineDistance_nonneg p q, haversineDistance_self p⟩
  have ha : hav_a p q =
      Real.sin ((q.lat - p.lat) * Real.pi / 180 / 2) ^ 2 +
        Real.cos (p.lat * Real.pi / 180) * Real.cos (q.lat * Real.pi / 180) *
          Real.sin ((q.lng - p.lng) * Real.pi / 180 / 2) ^ 2 := by
    unfold hav_a
    ring
  rw [haversineDistance, ha]
  ring

/-- C3: the distance computation is symmetric in its two coordinate
arguments. -/
theorem distance_calculator_symm (A B : Coordinate) :
    haversineDistance A B = haversineDistance B A := by
  unfold haversineDistance
  rw [hav_a_symm]

/-- C4: profile lookup is total: the returned profile is always a member of
the enumeration, a matching identifier returns its profile, and an
identifier matching no profile returns the first entry
(Gas Car, 170 g/km). -/
theorem transport_profile_lookup (selected : String) :
    getSelectedTransportType selected ∈ transportTypes ∧
    (∀ t ∈ transportTypes, t.id = selected → getSelectedTransportType selected = t) ∧
    ((∀ t ∈ transportTypes, t.id ≠ selected) →
      getSelectedTransportType selected =
        { id := "gas-car", name := "Gas Car", emissionFactor := 170 }) := by
  refine ⟨getSelectedTransportType_mem selected, ?_, ?_⟩
  · intro t ht hid
    subst hid
    simp only [transportTypes, List.mem_cons, List.not_mem_nil, or_false] at ht
    rcases ht with h | h | h <;> rw [h] <;> decide
  · intro h
    have hnone : transportTypes.find? (fun type_ => type_.id == selected) = none := by
      rw [List.find?_eq_none]
      intro t ht
      simpa using h t ht
    rw [getSelectedTransportType, hnone, Option.getD_none]
    decide

/-- Witness for C4 at the unknown identifier "scooter": the fallback is the
Gas Car profile. -/
theorem transport_profile_lookup_witness :
    getSelectedTransportType "scooter" =
      { id := "gas-car", name := "Gas Car", emissionFactor := 170 } :=
  (transport_profile_lookup "scooter").2.2 (by decide)

/-- C5: the normalizer emits one segment per step carrying transit details,
in source order, with mode, stops and distance text verbatim (the `segCore`
map equality and the length equality); a segment's `walking_before` /
`walking_after` is present exactly when the immediately preceding /
following step of the same leg is a walking step (the two iffs); legs are
processed independently, so walking adjacency cannot cross a leg boundary
(the append equation); and each qualifying step's segment is in the
output. -/
theorem itinerary_normalizer_contract :
    (∀ legs₁ legs₂ : List Leg,
      normalizeLegs (legs₁ ++ legs₂) = normalizeLegs legs₁ ++ normalizeLegs legs₂) ∧
    (∀ steps : List Step,
      (processLeg steps).map segCore =
        steps.filterMap fun s => s.transit_details.map (coreOf s)) ∧
    (∀ steps : List Step,
      (processLeg steps).length =
        (steps.filter fun s => s.transit_details.isSome).length) ∧
    (∀ (steps : List Step) (i : Nat) (step : Step) (transit : TransitDetails)
        (w : String),
      (mkSegment steps i step transit).walking_before = some w ↔
        ∃ prev, 0 < i ∧ steps[i - 1]? = some prev ∧ isWalking prev ∧
          w = walkNote prev) ∧
    (∀ (steps : List Step) (i : Nat) (step : Step) (transit : TransitDetails)
        (w : String),
      (mkSegment steps i step transit).walking_after = some w ↔
        ∃ next, steps[i + 1]? = some next ∧ isWalking next ∧ w = walkNote next) ∧
    (∀ (steps : List Step) (i : Nat) (step : Step) (transit : TransitDetails),
      steps[i]? = some step → step.transit_details = some transit →
        mkSegment steps i step transit ∈ processLeg steps) := by
  refine ⟨?_, processLeg_map_core, ?_, mkSegment_walking_before_iff,
    mkSegment_walking_after_iff, fun _ _ _ _ => mkSegment_mem_processLeg⟩
  · intro legs₁ legs₂
    simp [normalizeLegs]
  · intro steps
    have h := congrArg List.length (processLeg_map_core steps)
    rw [List.length_map] at h
    rw [h]
    exact length_filterMap_core steps

/-- Witness for C5: in a leg `[walking step, transit step]`, the transit
step's segment carries the walking step's distance and duration as
`walking_before`. -/
theorem itinerary_normalizer_contract_witness :
    (mkSegment [demoWalkStep, demoTransitStep] 1 demoTransitStep
      demoTransit).walking_before = some "500 m (Duration: 6 mins)" :=
  (itinerary_normalizer_contract.2.2.2.1 [demoWalkStep, demoTransitStep] 1
      demoTransitStep demoTransit "500 m (Duration: 6 mins)").mpr
    ⟨demoWalkStep, by decide, by decide, by decide, by decide⟩

/-- C6: a non-OK status, an empty route list, or a route whose steps carry
no transit details all make `getRouteData` return the fallback `none`; the
prompt (and hence the narrative call) treats absent and empty transit data
identically, and in that case is built from the selected profile and the
distance only. -/
theorem no_transit_fallback :
    (∀ d : DirectionsResponse, d.status ≠ "OK" → getRouteData d = none) ∧
    (∀ d : DirectionsResponse, d.routes = [] → getRouteData d = none) ∧
    (∀ (d : DirectionsResponse) (route : Route) (rest : List Route),
      d.routes = route :: rest →
      (∀ leg ∈ route.legs, ∀ s ∈ leg.steps, s.transit_details = none) →
      getRouteData d = none) ∧
    (∀ (r : NumberRendering) (distance : ℝ) (t : TransportType),
      buildPrompt r none distance t = buildPrompt r (some []) distance t) ∧
    (∀ (callModel : String → Option String) (r : NumberRendering) (distance : ℝ)
        (t : TransportType),
      getAIFeedback callModel r none distance t =
        getAIFeedback callModel r (some []) distance t) ∧
    (∀ (r : NumberRendering) (distance : ℝ) (t : TransportType),
      buildPrompt r none distance t =
        "Provide a detailed and insightful travel analysis based on the following information:\n\n" ++
        profileBlock r distance t ++
        "Total Distance: " ++ r.interp distance ++ " km\n" ++
        "Total Emissions: " ++
          r.toFixed2 (distance * (t.emissionFactor : ℝ) / 1000) ++ " kg CO2\n\n" ++
        "Provide an overall assessment of user\x27s journey, considering efficiency and environmental impact based on the kilogram of CO2 emitted from using the transportation modes. Do not include infrastructure recommendations for improvement but include how can the user emit less emission by providing alternative routes or modes of transportation. Also present the kg of co2 emitted using the modes of transportation in a clean format followed by the feedback. Keep your response concise and under 200 words.") := by
  refine ⟨?_, ?_, ?_, fun _ _ _ => rfl, fun _ _ _ _ => rfl, fun _ _ _ => rfl⟩
  · intro d h
    rw [getRouteData, if_neg h]
  · intro d h
    by_cases hs : d.status = "OK" <;> simp [getRouteData, h, hs]
  · intro d route rest hr h
    have hnil := normalizeLegs_eq_nil h
    by_cases hs : d.status = "OK" <;> simp [getRouteData, hr, hs, hnil]

/-- Witness for C6: a `ZERO_RESULTS` response yields the `none` fallback. -/
theorem no_transit_fallback_witness :
    getRouteData { status := "ZERO_RESULTS", routes := [] } = none :=
  no_transit_fallback.1 { status := "ZERO_RESULTS", routes := [] } (by decide)

/-- C8: whenever the reverse-geocoding lookup fails — it throws, returns a
non-OK status, or returns no results — the address is exactly the
synthesized string `Location at {lat.toFixed(4)}, {lng.toFixed(4)}`. -/
theorem reverse_geocode_fallback (toFixed4 : ℝ → String) (lat lng : ℝ)
    (response : Option GeocodeResponse)
    (hfail : response = none ∨
      ∃ d, response = some d ∧ (d.status ≠ "OK" ∨ d.results = [])) :
    getAddressFromCoordinates toFixed4 lat lng response =
      "Location at " ++ toFixed4 lat ++ ", " ++ toFixed4 lng := by
  rcases hfail with h | ⟨d, rfl, hd⟩
  · rw [h]
    rfl
  · rcases hd with hs | hr
    · simp [getAddressFromCoordinates, hs]
    · simp only [getAddressFromCoordinates, hr]
      by_cases hs : d.status = "OK" <;> simp [hs]

/-- Witness for C8 at a concrete failed lookup. -/
theorem reverse_geocode_fallback_witness :
    getAddressFromCoordinates (fun _ => "49.2827") 1 2
      (some { status := "ZERO_RESULTS", results := [] }) =
      "Location at " ++ "49.2827" ++ ", " ++ "49.2827" :=
  reverse_geocode_fallback (fun _ => "49.2827") 1 2
    (some { status := "ZERO_RESULTS", results := [] })
    (Or.inr ⟨_, rfl, Or.inl (by decide)⟩)

/-- C9: when the narrative-generation call fails, the result's narrative is
exactly the fixed apology string while distance, emissions and profile name
are computed normally. -/
theorem narrative_failure_fallback (r : NumberRendering) (selected : String)
    (transitData : Option (List TransitInfo)) (start end_ : Coordinate)
    (callModel : String → Option String) (hfail : ∀ s, callModel s = none) :
    (calculateEmissions r callModel selected transitData start end_).aiFeedback =
      "Unable to generate AI feedback at this time. Please try again later." ∧
    (calculateEmissions r callModel selected transitData start end_).distance =
      round2 (haversineDistance start end_) ∧
    (calculateEmissions r callModel selected transitData start end_).emissions =
      round2 (haversineDistance start end_ *
        ((getSelectedTransportType selected).emissionFactor : ℝ) / 1000) ∧
    (calculateEmissions r callModel selected transitData start end_).transportType =
      (getSelectedTransportType selected).name := by
  refine ⟨?_, rfl, rfl, rfl⟩
  show getAIFeedback callModel r transitData _ _ = _
  rw [getAIFeedback, hfail]
  rfl

/-- Witness for C9 with an always-failing generation call. -/
theorem narrative_failure_fallback_witness :
    (calculateEmissions ⟨fun _ => "", fun _ => "", fun _ => ""⟩ (fun _ => none)
        "bus" none ⟨0, 0⟩ ⟨0, 0⟩).aiFeedback =
      "Unable to generate AI feedback at this time. Please try again later." ∧
    (calculateEmissions ⟨fun _ => "", fun _ => "", fun _ => ""⟩ (fun _ => none)
        "bus" none ⟨0, 0⟩ ⟨0, 0⟩).distance =
      round2 (haversineDistance ⟨0, 0⟩ ⟨0, 0⟩) ∧
    (calculateEmissions ⟨fun _ => "", fun _ => "", fun _ => ""⟩ (fun _ => none)
        "bus" none ⟨0, 0⟩ ⟨0, 0⟩).emissions =
      round2 (haversineDistance ⟨0, 0⟩ ⟨0, 0⟩ *
        ((getSelectedTransportType "bus").emissionFactor : ℝ) / 1000) ∧
    (calculateEmissions ⟨fun _ => "", fun _ => "", fun _ => ""⟩ (fun _ => none)
        "bus" none ⟨0, 0⟩ ⟨0, 0⟩).transportType =
      (getSelectedTransportType "bus").name :=
  narrative_failure_fallback ⟨fun _ => "", fun _ => "", fun _ => ""⟩ "bus" none
    ⟨0, 0⟩ ⟨0, 0⟩ (fun _ => none) (fun _ => rfl)

/-- C10: when the calculation throws, the handler only sets the error
message and clears the in-flight flag; the previous result, both locations
and the selected profile are unchanged. -/
theorem calculate_error_frame (s : AppState)
    (hstart : s.startLocation.isSome = true) (hend : s.endLocation.isSome = true) :
    (handleCalculate (.error ()) s).error =
      some "Error calculating emissions. Please try again." ∧
    (handleCalculate (.error ()) s).isCalculating = false ∧
    (handleCalculate (.error ()) s).result = s.result ∧
    (handleCalculate (.error ()) s).startLocation = s.startLocation ∧
    (handleCalculate (.error ()) s).endLocation = s.endLocation ∧
    (handleCalculate (.error ()) s).selectedTransportType = s.selectedTransportType := by
  rw [handleCalculate, if_pos ⟨hstart, hend⟩]
  exact ⟨rfl, rfl, rfl, rfl, rfl, rfl⟩

/-- Witness for C10 at a concrete failing calculation. -/
theorem calculate_error_frame_witness :
    (handleCalculate (.error ())
        { startLocation := some { lat := 0, lng := 0, address := "A" },
          endLocation := some { lat := 1, lng := 1, address := "B" },
          isCalculating := true, result := none, error := none,
          selectedTransportType := "gas-car" }).error =
      some "Error calculating emissions. Please try again." ∧
    (handleCalculate (.error ())
        { startLocation := some { lat := 0, lng := 0, address := "A" },
          endLocation := some { lat := 1, lng := 1, address := "B" },
          isCalculating := true, result := none, error := none,
          selectedTransportType := "gas-car" }).isCalculating = false ∧
    (handleCalculate (.error ())
        { startLocation := some { lat := 0, lng := 0, address := "A" },
          endLocation := some { lat := 1, lng := 1, address := "B" },
          isCalculating := true, result := none, error := none,
          selectedTransportType := "gas-car" }).result = none ∧
    (handleCalculate (.error ())
        { startLocation := some { lat := 0, lng := 0, address := "A" },
          endLocation := some { lat := 1, lng := 1, address := "B" },
          isCalculating := true, result := none, error := none,
          selectedTransportType := "gas-car" }).startLocation =
      some { lat := 0, lng := 0, address := "A" } ∧
    (handleCalculate (.error ())
        { startLocation := some { lat := 0, lng := 0, address := "A" },
          endLocation := some { lat := 1, lng := 1, address := "B" },
          isCalculating := true, result := none, error := none,
          selectedTransportType := "gas-car" }).selectedTransportType = "gas-car" := by
  have h := calculate_error_frame
    { startLocation := some { lat := 0, lng := 0, address := "A" },
      endLocation := some { lat := 1, lng := 1, address := "B" },
      isCalculating := true, result := none, error := none,
      selectedTransportType := "gas-car" } rfl rfl
  exact ⟨h.1, h.2.1, h.2.2.1, h.2.2.2.1, h.2.2.2.2.2⟩

/-- C7 (counterexample): a leg holding a well-formed transit step followed
by a transit step whose details lack the `line` property produces `none` —
the well-formed step's segment is discarded — although the same response
without the malformed step produces that segment.  The malformed step is
therefore not "skipped while the remaining steps are still processed". -/
theorem normalizer_skip_counterexample :
    getRouteDataE demoBadDirections = none ∧
    getRouteDataE demoGoodDirections =
      some [{ mode := "Bus", departure_stop := "Granville Station",
              arrival_stop := "Waterfront Station", transit_distance := "2.0 km",
              walking_before := none, walking_after := none }] :=
  ⟨rfl, rfl⟩

/-- C7 (amended): a malformed response never crashes the normalizer — the
thrown `TypeError` is caught — but a step missing expected fields is not
skipped individually: its error aborts the entire pass, which returns the
no-transit fallback `none`. -/
theorem normalizer_malformed_aborts (d : JsDirections) (route : JsRoute)
    (rest : List JsRoute) (legs : List JsLeg) (leg : JsLeg)
    (steps : List JsStep) (step : JsStep) (transit : JsTransit)
    (hstatus : d.status = "OK") (hroutes : d.routes = some (route :: rest))
    (hlegs : route.legs = some legs) (hleg : leg ∈ legs)
    (hsteps : leg.steps = some steps) (hstep : step ∈ steps)
    (ht : step.transit_details = some transit) (hline : transit.line = none) :
    getRouteDataE d = none := by
  rcases d with ⟨st, rts⟩
  rcases route with ⟨rlegs⟩
  have h1 : st = "OK" := hstatus
  subst h1
  have h2 : rts = some ({ legs := rlegs } :: rest) := hroutes
  subst h2
  have h3 : rlegs = some legs := hlegs
  subst h3
  have hrun : legsFoldE legs = .error () := legsFoldE_error hleg hsteps hstep ht hline
  rw [getRouteDataE]
  show (match (legsFoldE legs >>= fun travelData =>
      pure (if 0 < travelData.length then some travelData else none) :
        Except Unit (Option (List TransitInfo))) with
    | .ok v => v
    | .error _ => none) = none
  rw [hrun]
  rfl

/-- Witness for the amended C7 at the concrete malformed response. -/
theorem normalizer_malformed_aborts_witness :
    getRouteDataE demoBadDirections = none :=
  normalizer_malformed_aborts demoBadDirections
    { legs := some [{ steps := some [demoJsGoodStep, demoJsBadStep] }] } []
    [{ steps := some [demoJsGoodStep, demoJsBadStep] }]
    { steps := some [demoJsGoodStep, demoJsBadStep] }
    [demoJsGoodStep, demoJsBadStep] demoJsBadStep
    { line := none, departure_stop := some { name := "C" },
      arrival_stop := some { name := "D" } }
    rfl rfl rfl (by decide) rfl (by decide) rfl rfl

end Footprint
